import Mathlib

/-!
Verification of the Enque backend edge control-plane: the `RealtimeHandler`
Durable Object (`src/cloudflare/src/durable-objects/realtime.ts`) and the
rate-limiting middleware (`src/cloudflare/src/middleware/rate-limit.ts`),
shallowly embedded in Lean 4.

WebSockets are modelled by numeric identifiers; the session `Map` is an
association list in insertion order; `JSON.parse` is an abstract parameter
(only success/failure and the decoded envelope matter to the handler);
send failures (`ws.send` throwing) are a boolean predicate on socket ids.
-/

namespace Enque

/-- The `RealtimeMessage` envelope of `realtime.ts` (payload kept opaque). -/
structure RealtimeMessage where
  type : String
  payload : String
  workspaceId : Option String
  agentId : Option String
  timestamp : Nat
  deriving Repr, DecidableEq

/-- Session info stored in the `sessions` map: `{ agentId, workspaceId }`. -/
structure Session where
  agentId : String
  workspaceId : String
  deriving Repr, DecidableEq

/-- The `sessions : Map<WebSocket, ...>` registry; sockets are `Nat` ids,
entries kept in insertion order as a JS `Map` does. -/
abbrev Registry := List (Nat × Session)

/-- `this.sessions.get(ws)`. -/
def lookup (reg : Registry) (ws : Nat) : Option Session :=
  (reg.find? (fun p => p.1 = ws)).map (fun p => p.2)

/-- Outbound frames the handler serialises with `JSON.stringify`. -/
inductive Frame where
  /-- the `connected` welcome frame of `fetch` -/
  | connected (workspaceId agentId : String) (ts : Nat)
  /-- `{ type: 'pong', timestamp }` -/
  | pong (ts : Nat)
  /-- `{ type: 'subscribed', payload, timestamp }` -/
  | subscribed (payload : String) (ts : Nat)
  /-- the error frame `{ type: 'error', payload: ..., timestamp }` -/
  | error (ts : Nat)
  /-- the fan-out frame `{ ...message, timestamp: Date.now() }`
  (the reassigned timestamp sits in the message's own field) -/
  | relay (msg : RealtimeMessage)
  deriving Repr, DecidableEq

/-- `RealtimeHandler.broadcast(message, workspaceId)`: iterate the session
map; send the relayed frame to every session in `workspaceId`; a send that
throws deletes that session and the loop continues.  Returns the list of
attempted sends `(socket, frame)` in iteration order, and the registry as
left after the loop. -/
def broadcast (reg : Registry) (message : RealtimeMessage) (workspaceId : String)
    (sendFails : Nat → Bool) (now : Nat) : List (Nat × Frame) × Registry :=
  match reg with
  | [] => ([], [])
  | (sid, s) :: rest =>
    let tail := broadcast rest message workspaceId sendFails now
    if s.workspaceId = workspaceId then
      if sendFails sid then
        ((sid, Frame.relay { message with timestamp := now }) :: tail.1, tail.2)
      else
        ((sid, Frame.relay { message with timestamp := now }) :: tail.1, (sid, s) :: tail.2)
    else
      (tail.1, (sid, s) :: tail.2)

/-- `notifyClients(workspaceId, message)` just calls `broadcast`. -/
def notifyClients (reg : Registry) (workspaceId : String) (message : RealtimeMessage)
    (sendFails : Nat → Bool) (now : Nat) : List (Nat × Frame) × Registry :=
  broadcast reg message workspaceId sendFails now

/-- An inbound WebSocket frame: `string | ArrayBuffer`. -/
inductive WSMessage where
  | text (s : String)
  | binary
  deriving Repr, DecidableEq

/-- `RealtimeHandler.webSocketMessage(ws, message)`. `parse` stands for
`JSON.parse` (`none` = it throws, landing in the `catch` that sends the
error frame).  A `ws.send` that throws inside the `try` (pong/subscribed
replies) also lands in the `catch`; `broadcast` swallows its own send
errors, so it never reaches the `catch`.  Result: attempted sends in order,
and the registry afterwards. -/
def webSocketMessage (parse : String → Option RealtimeMessage) (reg : Registry)
    (ws : Nat) (msg : WSMessage) (now : Nat) (sendFails : Nat → Bool) :
    List (Nat × Frame) × Registry :=
  match lookup reg ws with
  | none => ([], reg)
  | some session =>
    match msg with
    | WSMessage.binary => ([], reg)
    | WSMessage.text s =>
      match parse s with
      | none => ([(ws, Frame.error now)], reg)
      | some data =>
        if data.type = "ping" then
          if sendFails ws then ([(ws, Frame.pong now), (ws, Frame.error now)], reg)
          else ([(ws, Frame.pong now)], reg)
        else if data.type = "subscribe" then
          if sendFails ws then
            ([(ws, Frame.subscribed data.payload now), (ws, Frame.error now)], reg)
          else ([(ws, Frame.subscribed data.payload now)], reg)
        else if data.type = "broadcast" then
          broadcast reg data session.workspaceId sendFails now
        else ([], reg)

/-- JS truthiness of `searchParams.get(...)`: `null` and `''` are falsy. -/
def truthy : Option String → Bool
  | none => false
  | some s => !(s = "")

/-- Result of `RealtimeHandler.fetch`. -/
structure FetchResult where
  status : Nat
  registry : Registry
  sends : List (Nat × Frame)
  deriving Repr, DecidableEq

/-- `RealtimeHandler.fetch(request)`: 426 unless the `Upgrade: websocket`
header is present; 400 if `agentId` or `workspaceId` is missing/empty;
otherwise register the new socket, send the welcome frame and return 101. -/
def fetchUpgrade (reg : Registry) (isUpgrade : Bool)
    (agentId workspaceId : Option String) (newSid : Nat) (now : Nat) : FetchResult :=
  if !isUpgrade then
    { status := 426, registry := reg, sends := [] }
  else if !(truthy agentId) || !(truthy workspaceId) then
    { status := 400, registry := reg, sends := [] }
  else
    match agentId, workspaceId with
    | some a, some w =>
      { status := 101
        registry := reg ++ [(newSid, { agentId := a, workspaceId := w })]
        sends := [(newSid, Frame.connected w a now)] }
    | _, _ => { status := 400, registry := reg, sends := [] }

/-- `webSocketClose` / `webSocketError`: `this.sessions.delete(ws)`. -/
def webSocketClose (reg : Registry) (ws : Nat) : Registry :=
  reg.filter (fun p => !(p.1 = ws))

/-! ### Rate-limiting middleware (`rate-limit.ts`) -/

/-- The KV value `{ count, resetAt }` stored under the rate-limit key. -/
structure StoredRecord where
  count : Nat
  resetAt : Nat
  deriving Repr, DecidableEq

/-- `Math.ceil(a / 1000)` for a non-negative integer number of milliseconds. -/
def ceilSeconds (a : Nat) : Nat := (a + 999) / 1000

/-- What the middleware does with one request. -/
inductive RLOutcome where
  /-- `ENABLE_RATE_LIMITING` is off: straight to `next()` -/
  | skipped
  /-- request admitted (`next()` runs); the `(limit, remaining, reset)`
  triple of `X-RateLimit-*` headers, or `none` when the branch sets no
  headers at all -/
  | admitted (headers : Option (Nat × Nat × Nat))
  /-- 429 response: `(status, retryAfter, limit, remaining, reset)` -/
  | rejected (status retryAfter limit remaining reset : Nat)
  deriving Repr, DecidableEq

/-- Observable result of one middleware invocation. -/
structure RLResult where
  outcome : RLOutcome
  /-- KV value under the key after the call -/
  store : Option StoredRecord
  /-- `expirationTtl` passed to `CACHE.put`, when a put happened -/
  putTtl : Option Nat
  deriving Repr, DecidableEq

/-- `rateLimitMiddleware(config)` applied to one request, translated line
by line from `rate-limit.ts`.  `store` is the KV value under the request's
key, `getFails`/`putFails` make `CACHE.get`/`CACHE.put` throw; the source
has no `try`/`catch`, so a throwing store call aborts the middleware
(`Except.error`). -/
def rateLimit (enabled : Bool) (maxRequests windowMs : Nat)
    (store : Option StoredRecord) (getFails putFails : Bool) (now : Nat) :
    Except Unit RLResult :=
  if !enabled then
    Except.ok { outcome := RLOutcome.skipped, store := store, putTtl := none }
  else if getFails then
    Except.error ()
  else
    match store with
    | some currentData =>
      if now > currentData.resetAt then
        -- window expired: reset (note: this branch sets no headers)
        if putFails then Except.error ()
        else
          Except.ok
            { outcome := RLOutcome.admitted none
              store := some { count := 1, resetAt := now + windowMs }
              putTtl := some (ceilSeconds windowMs) }
      else
        if currentData.count ≥ maxRequests then
          Except.ok
            { outcome := RLOutcome.rejected 429
                (ceilSeconds (currentData.resetAt - now)) maxRequests 0
                currentData.resetAt
              store := store
              putTtl := none }
        else
          if putFails then Except.error ()
          else
            Except.ok
              { outcome := RLOutcome.admitted
                  (some (maxRequests, maxRequests - currentData.count - 1,
                    currentData.resetAt))
                store := some
                  { count := currentData.count + 1, resetAt := currentData.resetAt }
                putTtl := some (ceilSeconds (currentData.resetAt - now)) }
    | none =>
      if putFails then Except.error ()
      else
        Except.ok
          { outcome := RLOutcome.admitted
              (some (maxRequests, maxRequests - 1, now + windowMs))
            store := some { count := 1, resetAt := now + windowMs }
            putTtl := some (ceilSeconds windowMs) }

/-- `n` consecutive middleware invocations at the same instant `now`
against the same key, with a healthy store; collects the outcomes in
order together with the final stored value. -/
def runCalls (maxRequests windowMs now : Nat) :
    Nat → Option StoredRecord → List RLOutcome × Option StoredRecord
  | 0, s => ([], s)
  | n + 1, s =>
    match rateLimit true maxRequests windowMs s false false now with
    | Except.error _ => ([], s)
    | Except.ok r =>
      let rest := runCalls maxRequests windowMs now n r.store
      (r.outcome :: rest.1, rest.2)

/-! ### Helper lemmas -/

/-- A `sessions.get` hit is an entry of the registry. -/
theorem lookup_mem {reg : Registry} {ws : Nat} {s : Session}
    (h : lookup reg ws = some s) : (ws, s) ∈ reg := by
  unfold lookup at h
  cases hf : reg.find? (fun p => p.1 = ws) with
  | none => rw [hf] at h; cases h
  | some p =>
    rw [hf] at h
    have hmem := List.mem_of_find?_eq_some hf
    have hkey : p.1 = ws := by
      have := List.find?_some hf
      simpa using this
    have hval : p.2 = s := by simpa using h
    have : p = (ws, s) := by
      cases p
      simp_all
    rwa [this] at hmem

/-- In a registry whose keys are distinct (a JS `Map` guarantees this),
a key determines its session. -/
theorem keys_nodup_unique {l : Registry} (h : (l.map Prod.fst).Nodup)
    {k : Nat} {a b : Session} (ha : (k, a) ∈ l) (hb : (k, b) ∈ l) : a = b := by
  induction l with
  | nil => cases ha
  | cons p rest ih =>
    rw [List.map_cons, List.nodup_cons] at h
    rcases List.mem_cons.mp ha with ha1 | ha1 <;>
      rcases List.mem_cons.mp hb with hb1 | hb1
    · rw [← ha1] at hb1
      exact (congrArg Prod.snd hb1).symm
    · exfalso
      apply h.1
      rw [show p.1 = k from congrArg Prod.fst ha1.symm]
      exact List.mem_map_of_mem Prod.fst hb1
    · exfalso
      apply h.1
      rw [show p.1 = k from congrArg Prod.fst hb1.symm]
      exact List.mem_map_of_mem Prod.fst ha1
    · exact ih h.2 ha1 hb1

/-- Closed form of the fan-out loop: the attempted sends are exactly the
tenant's sessions in registry order, and the registry keeps everything
except tenant sessions whose send failed. -/
theorem broadcast_spec (msg : RealtimeMessage) (T : String) (fails : Nat → Bool)
    (now : Nat) : ∀ reg : Registry,
    broadcast reg msg T fails now =
      ((reg.filter (fun p => decide (p.2.workspaceId = T))).map
          (fun p => (p.1, Frame.relay { msg with timestamp := now })),
       reg.filter (fun p => !(decide (p.2.workspaceId = T) && fails p.1))) := by
  intro reg
  induction reg with
  | nil => rfl
  | cons hd rest ih =>
    obtain ⟨sid, s⟩ := hd
    simp only [broadcast, ih]
    by_cases hT : s.workspaceId = T
    · by_cases hf : fails sid <;> simp [hT, hf, List.filter_cons]
    · simp [hT, List.filter_cons]

/-! ### Claim theorems -/

/-- C7: during a fan-out over a tenant's sessions, every session of the
tenant is attempted regardless of which sends fail (the first conjunct
holds for any `fails`); a tenant session whose send fails is removed from
the registry and one whose send succeeds is kept.  `broadcast` is a total
function returning a plain pair, reflecting that the per-send `try`/`catch`
lets no failure escape to the caller. -/
theorem broadcast_failure_eviction (reg : Registry) (msg : RealtimeMessage)
    (T : String) (fails : Nat → Bool) (now : Nat) (sid : Nat) (s : Session)
    (hmem : (sid, s) ∈ reg) (hT : s.workspaceId = T) :
    (sid, Frame.relay { msg with timestamp := now }) ∈ (broadcast reg msg T fails now).1 ∧
    (fails sid = true → (sid, s) ∉ (broadcast reg msg T fails now).2) ∧
    (fails sid = false → (sid, s) ∈ (broadcast reg msg T fails now).2) := by
  rw [broadcast_spec]
  refine ⟨?_, ?_, ?_⟩
  · exact List.mem_map_of_mem _ (List.mem_filter.mpr ⟨hmem, by simp [hT]⟩)
  · intro hf hcontra
    have := (List.mem_filter.mp hcontra).2
    simp [hT, hf] at this
  · intro hf
    exact List.mem_filter.mpr ⟨hmem, by simp [hT, hf]⟩

/-- Witness for C7 at a concrete registry where the send to socket 1 fails. -/
theorem broadcast_failure_eviction_witness :
    (1, Frame.relay ⟨"x", "p", none, none, 5⟩) ∈
      (broadcast [(1, ⟨"a", "t"⟩), (2, ⟨"b", "t"⟩)]
        ⟨"x", "p", none, none, 0⟩ "t" (fun n => n == 1) 5).1 :=
  (broadcast_failure_eviction _ _ _ _ _ 1 ⟨"a", "t"⟩ (by decide) rfl).1

/-- C8: an inbound text frame from a registered session that fails to parse
draws exactly one reply, the `error` frame to the sender; no other session
receives anything, the registry is unchanged, and the sender is still
registered afterwards (the handler never closes a socket). -/
theorem unparseable_frame_error_reply (parse : String → Option RealtimeMessage)
    (reg : Registry) (ws : Nat) (sess : Session) (raw : String) (now : Nat)
    (fails : Nat → Bool) (hl : lookup reg ws = some sess) (hp : parse raw = none) :
    webSocketMessage parse reg ws (WSMessage.text raw) now fails =
      ([(ws, Frame.error now)], reg) ∧
    lookup (webSocketMessage parse reg ws (WSMessage.text raw) now fails).2 ws =
      some sess := by
  have h1 : webSocketMessage parse reg ws (WSMessage.text raw) now fails =
      ([(ws, Frame.error now)], reg) := by
    simp [webSocketMessage, hl, hp]
  exact ⟨h1, by rw [h1]; exact hl⟩

/-- Witness for C8: one registered socket, a parser that rejects. -/
theorem unparseable_frame_error_reply_witness :
    webSocketMessage (fun _ => none) [(1, ⟨"a", "t"⟩)] 1 (WSMessage.text "junk") 7
      (fun _ => false) = ([(1, Frame.error 7)], [(1, ⟨"a", "t"⟩)]) :=
  (unparseable_frame_error_reply (fun _ => none) [(1, ⟨"a", "t"⟩)] 1 ⟨"a", "t"⟩
    "junk" 7 (fun _ => false) rfl rfl).1

/-- C10: a non-text (binary) inbound frame is a complete no-op whether or
not the socket is registered, and any frame on an unregistered socket is a
complete no-op: no send is attempted (not even an error frame) and the
registry is unchanged. -/
theorem nontext_or_unregistered_noop (parse : String → Option RealtimeMessage)
    (reg : Registry) (ws : Nat) (now : Nat) (fails : Nat → Bool) :
    webSocketMessage parse reg ws WSMessage.binary now fails = ([], reg) ∧
    (∀ m : WSMessage, lookup reg ws = none →
      webSocketMessage parse reg ws m now fails = ([], reg)) := by
  constructor
  · unfold webSocketMessage
    cases lookup reg ws <;> rfl
  · intro m h
    unfold webSocketMessage
    rw [h]

/-- Witness for C10: a text frame on a socket absent from the registry. -/
theorem nontext_or_unregistered_noop_witness :
    webSocketMessage (fun _ => none) [] 3 (WSMessage.text "z") 7 (fun _ => false) =
      ([], []) :=
  (nontext_or_unregistered_noop (fun _ => none) [] 3 7 (fun _ => false)).2
    (WSMessage.text "z") rfl

/-- C9: a non-upgrade request is rejected with the dedicated 426 status and
a request missing (or carrying an empty) `agentId` or `workspaceId` is
rejected with 400; in every rejection case the status is in the 4xx class,
the registry is unchanged (no session created) and no frame is sent. -/
theorem reject_non_upgrade_or_missing_identity (reg : Registry) (isUpgrade : Bool)
    (agentId workspaceId : Option String) (newSid now : Nat) :
    (isUpgrade = false →
      fetchUpgrade reg isUpgrade agentId workspaceId newSid now =
        { status := 426, registry := reg, sends := [] }) ∧
    (isUpgrade = true → (truthy agentId = false ∨ truthy workspaceId = false) →
      fetchUpgrade reg isUpgrade agentId workspaceId newSid now =
        { status := 400, registry := reg, sends := [] }) ∧
    (truthy agentId = false ∨ truthy workspaceId = false →
      400 ≤ (fetchUpgrade reg isUpgrade agentId workspaceId newSid now).status ∧
      (fetchUpgrade reg isUpgrade agentId workspaceId newSid now).status < 500 ∧
      (fetchUpgrade reg isUpgrade agentId workspaceId newSid now).registry = reg ∧
      (fetchUpgrade reg isUpgrade agentId workspaceId newSid now).sends = []) := by
  refine ⟨?_, ?_, ?_⟩
  · intro h
    simp [fetchUpgrade, h]
  · intro h hm
    rcases hm with hm | hm <;> simp [fetchUpgrade, h, hm]
  · intro hm
    cases isUpgrade with
    | false => simp [fetchUpgrade]
    | true => rcases hm with hm | hm <;> simp [fetchUpgrade, hm]

/-- C1: tenant isolation.  In a registry with distinct socket keys (as a JS
`Map` guarantees), a session registered under a tenant other than `T` never
receives a frame from a delivery scoped to `T`, whether the delivery comes
from `notifyClients` or from an inbound broadcast frame whose sender is
bound to `T`. -/
theorem tenant_isolation (reg : Registry) (hkeys : (reg.map Prod.fst).Nodup)
    (msg : RealtimeMessage) (T : String) (fails : Nat → Bool) (now : Nat)
    (sid : Nat) (s : Session) (hmem : (sid, s) ∈ reg) (hne : s.workspaceId ≠ T) :
    (∀ f : Frame, (sid, f) ∉ (notifyClients reg T msg fails now).1) ∧
    (∀ (parse : String → Option RealtimeMessage) (ws : Nat) (raw : String)
        (data : RealtimeMessage) (sess : Session),
      lookup reg ws = some sess → parse raw = some data →
      data.type = "broadcast" → sess.workspaceId = T →
      ∀ f : Frame,
        (sid, f) ∉ (webSocketMessage parse reg ws (WSMessage.text raw) now fails).1) := by
  have key : ∀ (m : RealtimeMessage) (f : Frame),
      (sid, f) ∉ (broadcast reg m T fails now).1 := by
    intro m f hcontra
    rw [broadcast_spec] at hcontra
    rcases List.mem_map.mp hcontra with ⟨p, hpfilter, hpeq⟩
    have hpreg := (List.mem_filter.mp hpfilter).1
    have hpT : p.2.workspaceId = T := by
      have := (List.mem_filter.mp hpfilter).2
      simpa using this
    have hpsid : p.1 = sid := congrArg Prod.fst hpeq
    have : p.2 = s := by
      apply keys_nodup_unique hkeys _ hmem
      rw [← hpsid]
      exact hpreg
    exact hne (this ▸ hpT)
  refine ⟨fun f => key msg f, ?_⟩
  intro parse ws raw data sess hl hp ht hw f
  have hred : webSocketMessage parse reg ws (WSMessage.text raw) now fails =
      broadcast reg data sess.workspaceId fails now := by
    simp [webSocketMessage, hl, hp, ht]
  rw [hred, hw]
  exact key data f

/-- Witness for C1: socket 2 lives in tenant t2 and receives nothing from a
notify scoped to t1. -/
theorem tenant_isolation_witness :
    (2, Frame.relay ⟨"broadcast", "p", some "t2", none, 9⟩) ∉
      (notifyClients [(1, ⟨"a1", "t1"⟩), (2, ⟨"a2", "t2"⟩)] "t1"
        ⟨"broadcast", "p", some "t2", none, 0⟩ (fun _ => false) 9).1 :=
  (tenant_isolation [(1, ⟨"a1", "t1"⟩), (2, ⟨"a2", "t2"⟩)] (by decide)
    ⟨"broadcast", "p", some "t2", none, 0⟩ "t1" (fun _ => false) 9 2
    ⟨"a2", "t2"⟩ (by decide) (by decide)).1
    (Frame.relay ⟨"broadcast", "p", some "t2", none, 9⟩)

/-- C2: an inbound broadcast frame from a registered session fans out
exactly to the sessions registered under the sender's bound tenant (the
right-hand side mentions only the sender's binding, never the
`workspaceId` carried inside the frame); every session of that tenant, the
sender included, is sent the relayed frame with the hub-assigned
timestamp. -/
theorem inbound_broadcast_fanout (parse : String → Option RealtimeMessage)
    (reg : Registry) (ws : Nat) (raw : String) (data : RealtimeMessage)
    (sess : Session) (now : Nat) (fails : Nat → Bool)
    (hl : lookup reg ws = some sess) (hp : parse raw = some data)
    (ht : data.type = "broadcast") :
    (webSocketMessage parse reg ws (WSMessage.text raw) now fails).1 =
      (reg.filter (fun p => decide (p.2.workspaceId = sess.workspaceId))).map
        (fun p => (p.1, Frame.relay { data with timestamp := now })) ∧
    (∀ (sid2 : Nat) (s2 : Session), (sid2, s2) ∈ reg →
      s2.workspaceId = sess.workspaceId →
      (sid2, Frame.relay { data with timestamp := now }) ∈
        (webSocketMessage parse reg ws (WSMessage.text raw) now fails).1) ∧
    (ws, Frame.relay { data with timestamp := now }) ∈
      (webSocketMessage parse reg ws (WSMessage.text raw) now fails).1 := by
  have hred : webSocketMessage parse reg ws (WSMessage.text raw) now fails =
      broadcast reg data sess.workspaceId fails now := by
    simp [webSocketMessage, hl, hp, ht]
  have hmem : ∀ (sid2 : Nat) (s2 : Session), (sid2, s2) ∈ reg →
      s2.workspaceId = sess.workspaceId →
      (sid2, Frame.relay { data with timestamp := now }) ∈
        (webSocketMessage parse reg ws (WSMessage.text raw) now fails).1 := by
    intro sid2 s2 h2 hw2
    rw [hred, broadcast_spec]
    exact List.mem_map_of_mem _ (List.mem_filter.mpr ⟨h2, by simp [hw2]⟩)
  refine ⟨?_, hmem, hmem ws sess (lookup_mem hl) rfl⟩
  rw [hred, broadcast_spec]

/-- Witness for C2: the sender (socket 1) and its same-tenant peer
(socket 2) both receive the relayed frame; targeting follows the sender's
binding t1, not the t9 inside the frame. -/
theorem inbound_broadcast_fanout_witness :
    (1, Frame.relay ⟨"broadcast", "p", some "t9", none, 4⟩) ∈
      (webSocketMessage (fun _ => some ⟨"broadcast", "p", some "t9", none, 0⟩)
        [(1, ⟨"a1", "t1"⟩), (2, ⟨"a2", "t1"⟩)] 1 (WSMessage.text "m") 4
        (fun _ => false)).1 :=
  (inbound_broadcast_fanout (fun _ => some ⟨"broadcast", "p", some "t9", none, 0⟩)
    [(1, ⟨"a1", "t1"⟩), (2, ⟨"a2", "t1"⟩)] 1 "m"
    ⟨"broadcast", "p", some "t9", none, 0⟩ ⟨"a1", "t1"⟩ 4 (fun _ => false)
    rfl rfl rfl).2.2

/-- Witness for C9: a non-upgrade request and an upgrade request with an
empty `agentId`, both against a non-empty registry. -/
theorem reject_non_upgrade_or_missing_identity_witness :
    fetchUpgrade [(5, ⟨"a", "w"⟩)] false (some "a") (some "w") 9 3 =
      { status := 426, registry := [(5, ⟨"a", "w"⟩)], sends := [] } ∧
    fetchUpgrade [(5, ⟨"a", "w"⟩)] true (some "") (some "w") 9 3 =
      { status := 400, registry := [(5, ⟨"a", "w"⟩)], sends := [] } :=
  ⟨(reject_non_upgrade_or_missing_identity [(5, ⟨"a", "w"⟩)] false (some "a")
      (some "w") 9 3).1 rfl,
   (reject_non_upgrade_or_missing_identity [(5, ⟨"a", "w"⟩)] true (some "")
      (some "w") 9 3).2.1 rfl (Or.inl rfl)⟩

/-- C3 counterexample: with the KV read failing, the middleware aborts with
the store error (`rate-limit.ts` wraps none of its `CACHE` calls in a
`try`/`catch`), instead of admitting the request. -/
theorem store_failure_not_fail_open :
    rateLimit true 10 60000 none true false 0 = Except.error () := rfl

/-- C3 (amended): a failing KV read, and a failing KV write on any of the
three writing paths (fresh key, expired window, in-window increment),
aborts the middleware with the store error; the failure propagates out of
the middleware and the request is not admitted by it. -/
theorem store_failure_propagates (maxRequests windowMs now : Nat)
    (store : Option StoredRecord) (putFails : Bool) :
    rateLimit true maxRequests windowMs store true putFails now =
      Except.error () ∧
    rateLimit true maxRequests windowMs none false true now = Except.error () ∧
    (∀ count resetAt : Nat, resetAt < now →
      rateLimit true maxRequests windowMs (some ⟨count, resetAt⟩) false true now =
        Except.error ()) ∧
    (∀ count resetAt : Nat, now ≤ resetAt → count < maxRequests →
      rateLimit true maxRequests windowMs (some ⟨count, resetAt⟩) false true now =
        Except.error ()) := by
  refine ⟨rfl, rfl, ?_, ?_⟩
  · intro count resetAt h
    simp [rateLimit, h]
  · intro count resetAt h1 h2
    have hng : ¬ (now > resetAt) := by omega
    have hnc : ¬ (count ≥ maxRequests) := by omega
    simp [rateLimit, hng, hnc]

/-- Witness for the amended C3: an in-window increment whose write fails. -/
theorem store_failure_propagates_witness :
    rateLimit true 5 60000 (some ⟨2, 100⟩) false true 11 = Except.error () :=
  (store_failure_propagates 5 60000 11 none true).2.2.2 2 100 (by decide) (by decide)

/-- C4 counterexample: at the boundary now = windowResetAt (limit 1,
count 1) the code still treats the record as current and rejects, where
the claim demands a reset and an admit; and on a strictly expired record
the reset admits without reporting any rate-limit headers, where the claim
demands remaining = limit - 1. -/
theorem window_reset_boundary_counterexample :
    rateLimit true 1 60000 (some ⟨1, 100⟩) false false 100 =
      Except.ok ⟨RLOutcome.rejected 429 0 1 0 100, some ⟨1, 100⟩, none⟩ ∧
    rateLimit true 5 60000 (some ⟨3, 100⟩) false false 101 =
      Except.ok ⟨RLOutcome.admitted none, some ⟨1, 60101⟩, some 60⟩ :=
  ⟨rfl, rfl⟩

/-- C4 (amended): only strictly past `windowResetAt` is a record expired:
the window then resets (count 1, resetAt = now + windowMs, stored with
ttl = windowMs in seconds rounded up) and the request is admitted, but no
rate-limit headers are reported.  At now = windowResetAt the record is
treated as current: rejected when the count has reached the limit,
incremented otherwise. -/
theorem expired_record_reset (maxRequests windowMs count resetAt now : Nat)
    (h : resetAt < now) :
    rateLimit true maxRequests windowMs (some ⟨count, resetAt⟩) false false now =
      Except.ok ⟨RLOutcome.admitted none, some ⟨1, now + windowMs⟩,
        some (ceilSeconds windowMs)⟩ ∧
    rateLimit true maxRequests windowMs (some ⟨count, now⟩) false false now =
      (if maxRequests ≤ count then
        Except.ok ⟨RLOutcome.rejected 429 0 maxRequests 0 now,
          some ⟨count, now⟩, none⟩
       else
        Except.ok ⟨RLOutcome.admitted
            (some (maxRequests, maxRequests - count - 1, now)),
          some ⟨count + 1, now⟩, some 0⟩) := by
  constructor
  · simp [rateLimit, h]
  · have hng : ¬ (now > now) := by omega
    by_cases hc : maxRequests ≤ count
    · have : count ≥ maxRequests := hc
      simp [rateLimit, hng, hc, this, ceilSeconds]
    · have : ¬ (count ≥ maxRequests) := hc
      simp [rateLimit, hng, hc, this, ceilSeconds]

/-- Witness for the amended C4: a record expired one millisecond ago. -/
theorem expired_record_reset_witness :
    rateLimit true 5 60000 (some ⟨3, 100⟩) false false 101 =
      Except.ok ⟨RLOutcome.admitted none, some ⟨1, 60101⟩, some 60⟩ :=
  (expired_record_reset 5 60000 3 100 101 (by decide)).1

/-- C5: a current record (now < windowResetAt) at or over the limit draws
a 429 rejection with Retry-After = (windowResetAt - now) in seconds
rounded up, reported remaining 0, and no write to the store; a second
in-window check sees the identical stored count and resetAt and is
rejected the same way. -/
theorem reject_does_not_consume (maxRequests windowMs count resetAt now now2 : Nat)
    (hcur : now < resetAt) (hcount : maxRequests ≤ count) :
    rateLimit true maxRequests windowMs (some ⟨count, resetAt⟩) false false now =
      Except.ok ⟨RLOutcome.rejected 429 (ceilSeconds (resetAt - now))
          maxRequests 0 resetAt,
        some ⟨count, resetAt⟩, none⟩ ∧
    (now2 < resetAt →
      rateLimit true maxRequests windowMs (some ⟨count, resetAt⟩) false false now2 =
        Except.ok ⟨RLOutcome.rejected 429 (ceilSeconds (resetAt - now2))
            maxRequests 0 resetAt,
          some ⟨count, resetAt⟩, none⟩) := by
  have gen : ∀ t : Nat, t < resetAt →
      rateLimit true maxRequests windowMs (some ⟨count, resetAt⟩) false false t =
        Except.ok ⟨RLOutcome.rejected 429 (ceilSeconds (resetAt - t))
            maxRequests 0 resetAt,
          some ⟨count, resetAt⟩, none⟩ := by
    intro t ht
    have hng : ¬ (t > resetAt) := by omega
    simp [rateLimit, hng, hcount]
  exact ⟨gen now hcur, gen now2⟩

/-- In-window trajectory of `runCalls`: starting from a live record
`⟨c, now + windowMs⟩` with at least `j` requests of budget left, all `j`
calls are admitted, the i-th reporting remaining
`maxRequests - (c + i) - 1`, and the count ends at `c + j`. -/
theorem runCalls_inWindow (maxRequests windowMs now : Nat) :
    ∀ j c : Nat, 1 ≤ c → c + j ≤ maxRequests →
      runCalls maxRequests windowMs now j (some ⟨c, now + windowMs⟩) =
        ((List.range j).map (fun i => RLOutcome.admitted
            (some (maxRequests, maxRequests - (c + i) - 1, now + windowMs))),
         some ⟨c + j, now + windowMs⟩) := by
  intro j
  induction j with
  | zero => intro c h1 h2; simp [runCalls]
  | succ k ih =>
    intro c h1 h2
    have hng : ¬ (now > now + windowMs) := by omega
    have hnc : ¬ (c ≥ maxRequests) := by omega
    have hstep : rateLimit true maxRequests windowMs (some ⟨c, now + windowMs⟩)
        false false now =
        Except.ok ⟨RLOutcome.admitted
            (some (maxRequests, maxRequests - c - 1, now + windowMs)),
          some ⟨c + 1, now + windowMs⟩,
          some (ceilSeconds (now + windowMs - now))⟩ := by
      simp [rateLimit, hng, hnc]
    rw [runCalls, hstep]
    dsimp only
    rw [ih (c + 1) (by omega) (by omega)]
    rw [List.range_succ_eq_map, List.map_cons, List.map_map]
    refine congrArg₂ Prod.mk ?_ ?_
    · refine congrArg₂ List.cons (by simp) ?_
      apply List.map_congr_left
      intro i _
      have : c + 1 + i = c + (i + 1) := by omega
      simp [Function.comp, this]
    · have : c + 1 + k = c + (k + 1) := by omega
      rw [this]

/-- C6: the three admission facts of the limiter.  A fresh key stores
count 1 with resetAt = now + windowMs and ttl = windowMs in seconds
(rounded up) and admits with remaining = limit - 1; a current record under
the limit is incremented (resetAt unchanged) and admits with
remaining = limit - count - 1; and for a fresh key, `limit` consecutive
in-window calls are all admitted with the i-th reporting
remaining = limit - i - 1, the last therefore reporting remaining 0. -/
theorem admission_paths (maxRequests windowMs count resetAt now : Nat) :
    rateLimit true maxRequests windowMs none false false now =
      Except.ok ⟨RLOutcome.admitted
          (some (maxRequests, maxRequests - 1, now + windowMs)),
        some ⟨1, now + windowMs⟩, some (ceilSeconds windowMs)⟩ ∧
    (now < resetAt → count < maxRequests →
      rateLimit true maxRequests windowMs (some ⟨count, resetAt⟩) false false now =
        Except.ok ⟨RLOutcome.admitted
            (some (maxRequests, maxRequests - count - 1, resetAt)),
          some ⟨count + 1, resetAt⟩, some (ceilSeconds (resetAt - now))⟩) ∧
    (1 ≤ maxRequests →
      runCalls maxRequests windowMs now maxRequests none =
        ((List.range maxRequests).map (fun i => RLOutcome.admitted
            (some (maxRequests, maxRequests - i - 1, now + windowMs))),
         some ⟨maxRequests, now + windowMs⟩)) ∧
    (1 ≤ maxRequests →
      (runCalls maxRequests windowMs now maxRequests none).1.getLast? =
        some (RLOutcome.admitted (some (maxRequests, 0, now + windowMs)))) := by
  have hfresh : rateLimit true maxRequests windowMs none false false now =
      Except.ok ⟨RLOutcome.admitted
          (some (maxRequests, maxRequests - 1, now + windowMs)),
        some ⟨1, now + windowMs⟩, some (ceilSeconds windowMs)⟩ := by
    simp [rateLimit]
  have hrun : 1 ≤ maxRequests →
      runCalls maxRequests windowMs now maxRequests none =
        ((List.range maxRequests).map (fun i => RLOutcome.admitted
            (some (maxRequests, maxRequests - i - 1, now + windowMs))),
         some ⟨maxRequests, now + windowMs⟩) := by
    intro hmax
    obtain ⟨k, hk⟩ : ∃ k, maxRequests = k + 1 :=
      ⟨maxRequests - 1, by omega⟩
    subst hk
    rw [runCalls, hfresh]
    dsimp only
    rw [runCalls_inWindow (k + 1) windowMs now k 1 (by omega) (by omega)]
    rw [List.range_succ_eq_map, List.map_cons, List.map_map]
    refine congrArg₂ Prod.mk ?_ (by rw [Nat.add_comm 1 k])
    refine congrArg₂ List.cons (by simp) ?_
    apply List.map_congr_left
    intro i _
    have : 1 + i = i + 1 := by omega
    simp [Function.comp, this]
  refine ⟨hfresh, ?_, hrun, ?_⟩
  · intro h1 h2
    have hng : ¬ (now > resetAt) := by omega
    have hnc : ¬ (count ≥ maxRequests) := by omega
    simp [rateLimit, hng, hnc]
  · intro hmax
    rw [hrun hmax]
    obtain ⟨k, hk⟩ : ∃ k, maxRequests = k + 1 :=
      ⟨maxRequests - 1, by omega⟩
    subst hk
    rw [List.range_succ, List.map_append]
    simp

/-- Witness for C6: limit 3, window 60 s, first calls at t = 5. -/
theorem admission_paths_witness :
    rateLimit true 3 60000 (some ⟨1, 60005⟩) false false 5 =
      Except.ok ⟨RLOutcome.admitted (some (3, 1, 60005)),
        some ⟨2, 60005⟩, some 60⟩ ∧
    runCalls 3 60000 5 3 none =
      ([RLOutcome.admitted (some (3, 2, 60005)),
        RLOutcome.admitted (some (3, 1, 60005)),
        RLOutcome.admitted (some (3, 0, 60005))], some ⟨3, 60005⟩) :=
  ⟨(admission_paths 3 60000 1 60005 5).2.1 (by decide) (by decide),
   (admission_paths 3 60000 1 60005 5).2.2.1 (by decide)⟩

/-- Witness for C5: limit 2 exhausted, checks at t = 5 and t = 6. -/
theorem reject_does_not_consume_witness :
    rateLimit true 2 60000 (some ⟨2, 60000⟩) false false 5 =
      Except.ok ⟨RLOutcome.rejected 429 60 2 0 60000, some ⟨2, 60000⟩, none⟩ :=
  (reject_does_not_consume 2 60000 2 60000 5 6 (by decide) (by decide)).1

end Enque
